import Mathlib

/-!
Shallow embedding of the vanilla-rtrl core (src/network.py, src/simulation.py,
src/utils.py) over exact rationals.  Vectors are `Fin n → ℚ`, matrices are
`Fin m → Fin n → ℚ`, and runtime 1-D numpy arrays whose length is only known
dynamically (flattened gradients, `dadw` columns, `a_hat`) are `ℕ → ℚ` with
explicit length bookkeeping in the statements.  Random draws (`np.random.*`)
are passed in as oracle arguments holding the sampled values.
-/

namespace VanillaRTRL

/-- Matrix product of dimension-indexed rational matrices (`np.dot`). -/
def matMul {m n p : ℕ} (A : Fin m → Fin n → ℚ) (B : Fin n → Fin p → ℚ) :
    Fin m → Fin p → ℚ :=
  fun i k => ∑ j, A i j * B j k

/-- `np.diag` of a vector: the square matrix with `v` on the diagonal. -/
def diagM {n : ℕ} (v : Fin n → ℚ) : Fin n → Fin n → ℚ :=
  fun i j => if i = j then v i else 0

/-- Matrix–vector product `M.dot(v)`. -/
def matVec {m n : ℕ} (M : Fin m → Fin n → ℚ) (v : Fin n → ℚ) : Fin m → ℚ :=
  fun i => ∑ j, M i j * v j

/-- Vector–matrix product `v.dot(M)` (row vector times matrix). -/
def vecMat {m n : ℕ} (v : Fin m → ℚ) (M : Fin m → Fin n → ℚ) : Fin n → ℚ :=
  fun j => ∑ i, v i * M i j

/-- A dimension-indexed vector widened to a runtime array (`ℕ`-indexed, junk 0
outside its length, which callers track separately). -/
def toArr {n : ℕ} (v : Fin n → ℚ) : ℕ → ℚ :=
  fun k => if h : k < n then v ⟨k, h⟩ else 0

/-- A dimension-indexed matrix widened to a runtime 2-D array. -/
def toArr2 {m n : ℕ} (M : Fin m → Fin n → ℚ) : ℕ → ℕ → ℚ :=
  fun i j => if hi : i < m then if hj : j < n then M ⟨i, hi⟩ ⟨j, hj⟩ else 0 else 0

/-- `np.concatenate([v, w])` where `v` has length `m`: index `k` reads `v k`
when `k < m` and `w (k - m)` otherwise. -/
def npCat (m : ℕ) (v w : ℕ → ℚ) : ℕ → ℚ :=
  fun k => if k < m then v k else w (k - m)

/-- Column-major (`order='F'`) flattening of a 2-D array with `r` rows:
flat index `k` reads element `(k % r, k / r)`. -/
def flatColMajor (r : ℕ) (M : ℕ → ℕ → ℚ) : ℕ → ℚ :=
  fun k => M (k % r) (k / r)

/-- Row-major (numpy default `order='C'`) flattening of the outer product
`np.multiply.outer(e, a)` of an `O`-vector with an `H`-vector, as built on
src/network.py line 214: flat index `k` reads `e[k / H] * a[k % H]`. -/
def outerFlatRowMajor {O H : ℕ} (e : Fin O → ℚ) (a : Fin H → ℚ) : ℕ → ℚ :=
  fun k => toArr e (k / H) * toArr a (k % H)

/-- `np.random.uniform(low, high)` expressed through a unit draw
`u ∈ [0, 1)` of the underlying generator: the sample is `low + (high-low)·u`. -/
def npUniform (low high u : ℚ) : ℚ := low + (high - low) * u

/-- An activation function object from the (out-of-src) functions catalogue:
a scalar value/derivative pair applied elementwise, as assumed by
src/network.py (`self.activation.f`, `self.activation.f_prime`). -/
structure Activation where
  f : ℚ → ℚ
  f_prime : ℚ → ℚ

/-- Modelled from the spec: the loss function objects live in functions.py,
which is not under src/ (src/network.py and src/simulation.py only call
`loss.f` / `loss.f_prime`).  Per spec §2/§6 the catalogue holds
`mean_squared_error` and `softmax_cross_entropy`; a cross-entropy float loss
can be non-finite (e.g. at a zero predicted probability), so the scalar loss
value is modelled in `WithTop ℚ`, with `⊤` standing for a non-finite float.
The error signal `f_prime` is an ordinary `O`-vector. -/
structure LossFn (O : ℕ) where
  f : (Fin O → ℚ) → (Fin O → ℚ) → WithTop ℚ
  f_prime : (Fin O → ℚ) → (Fin O → ℚ) → (Fin O → ℚ)

/-- The RNN object of src/network.py with hidden size `H`, input size `I` and
output size `O` (`n_hidden`, `n_in`, `n_out`).  Parameters and the per-step
state attributes are fields; the dimension asserts of `__init__` (lines 46-51)
hold by construction of the indexed types. -/
structure RNN (H I O : ℕ) where
  W_rec : Fin H → Fin H → ℚ
  W_in : Fin H → Fin I → ℚ
  b_rec : Fin H → ℚ
  W_out : Fin O → Fin H → ℚ
  b_out : Fin O → ℚ
  activation : Activation
  alpha : ℚ
  l2_reg : ℚ
  h : Fin H → ℚ
  a : Fin H → ℚ
  z : Fin O → ℚ
  h_prev : Fin H → ℚ
  a_prev : Fin H → ℚ
  x : Fin I → ℚ
  y_hat : Fin O → ℚ
  loss_ : WithTop ℚ
  error : Fin O → ℚ
  a_J : Fin H → Fin H → ℚ
  dadw : Fin H → ℕ → ℚ

namespace RNN

variable {H I O : ℕ}

/-- `n_hidden_params` (src/network.py lines 72-74): the number of parameters
of the hidden layer, `W_rec.size + W_in.size + b_rec.size`. -/
def n_hidden_params (H I : ℕ) : ℕ := H * H + H * I + H

/-- `n_params` (src/network.py lines 65-69): the total parameter count. -/
def n_params (H I O : ℕ) : ℕ := H * H + H * I + H + O * H + O

/-- `self.flat_idx` (src/network.py line 56): cumulative size offsets of the
ordered parameter list `[W_rec, W_in, b_rec, W_out, b_out]`,
`np.cumsum([0] + [w.size for w in self.params])`. -/
def flat_idx (H I O : ℕ) : List ℕ :=
  [0, H * H, H * H + H * I, H * H + H * I + H, H * H + H * I + H + O * H,
   H * H + H * I + H + O * H + O]

/-- `RNN.__init__` (src/network.py lines 34-94), restricted to the attributes
the claims touch.  The initial state draws (`self.h`, `self.z`, `self.dadw`,
lines 77-82) are passed as oracle arguments holding the sampled values, and
`self.a` is set to `self.activation.f(self.h)` (line 78).  The attributes
Python leaves unset until later (`h_prev`, `a_prev`, `x`, `a_J`, `y_hat`,
`loss_`, `error`; `l2_reg` is only set inside `run`, lines 261-262) are
passed in as explicit "uninitialized" values. -/
def init (W_rec : Fin H → Fin H → ℚ) (W_in : Fin H → Fin I → ℚ)
    (b_rec : Fin H → ℚ) (W_out : Fin O → Fin H → ℚ) (b_out : Fin O → ℚ)
    (activation : Activation) (alpha : ℚ) (l2_reg : ℚ)
    (hDraw : Fin H → ℚ) (zDraw : Fin O → ℚ) (dadwDraw : Fin H → ℕ → ℚ)
    (u_h_prev u_a_prev : Fin H → ℚ) (u_x : Fin I → ℚ) (u_y_hat : Fin O → ℚ)
    (u_loss : WithTop ℚ) (u_error : Fin O → ℚ) (u_a_J : Fin H → Fin H → ℚ) :
    RNN H I O :=
  { W_rec := W_rec, W_in := W_in, b_rec := b_rec, W_out := W_out,
    b_out := b_out, activation := activation, alpha := alpha,
    l2_reg := l2_reg, h := hDraw, a := fun i => activation.f (hDraw i),
    z := zDraw, h_prev := u_h_prev, a_prev := u_a_prev, x := u_x,
    y_hat := u_y_hat, loss_ := u_loss, error := u_error, a_J := u_a_J,
    dadw := dadwDraw }

/-- `RNN.next_state` (src/network.py lines 96-113): store the previous state
(`h_prev`, `a_prev`, lines 109-110), then
`h ← (1-α)·h + W_rec·a + W_in·x + b_rec` (line 112; `self.a` there is the
pre-update activation, i.e. `a_prev`) and `a ← activation.f(h)` (line 113).
The signature takes only `x`: the def has no noise argument and no noise
term, exactly as in the source. -/
def next_state (n : RNN H I O) (x : Fin I → ℚ) : RNN H I O :=
  let h' : Fin H → ℚ := fun i =>
    (1 - n.alpha) * n.h i + matVec n.W_rec n.a i + matVec n.W_in x i + n.b_rec i
  { n with x := x, h_prev := n.h, a_prev := n.a, h := h',
           a := fun i => n.activation.f (h' i) }

/-- The forward step as the specification words it (spec §4.1:
`h ← (1−α)·h + W_rec·a + W_in·x + b_rec + σ·ξ` with ξ a standard-normal
draw, then `a ← φ(h)`), stated with the noise draw `ξ` as an oracle
argument.  This is the spec side of the refinement comparison with
`RNN.next_state` above, which is translated from the source. -/
def next_state_spec (n : RNN H I O) (x : Fin I → ℚ) (sigma : ℚ)
    (xi : Fin H → ℚ) : RNN H I O :=
  let h' : Fin H → ℚ := fun i =>
    (1 - n.alpha) * n.h i + matVec n.W_rec n.a i + matVec n.W_in x i
      + n.b_rec i + sigma * xi i
  { n with x := x, h_prev := n.h, a_prev := n.a, h := h',
           a := fun i => n.activation.f (h' i) }

/-- `RNN.z_out` (src/network.py lines 115-118): `z ← W_out·a + b_out`. -/
def z_out (n : RNN H I O) : RNN H I O :=
  { n with z := fun o => matVec n.W_out n.a o + n.b_out o }

/-- `RNN.reset_network` (src/network.py lines 120-127).  Its only parameter
besides `self` is the optional `h`; when absent the state is redrawn (the
draw value is the oracle argument `hDraw`, sampled in the source from
N(0, 1/√n_hidden)).  In both cases `a ← activation.f(h)` (line 127). -/
def reset_network (n : RNN H I O) (hArg : Option (Fin H → ℚ))
    (hDraw : Fin H → ℚ) : RNN H I O :=
  let hNew := hArg.getD hDraw
  { n with h := hNew, a := fun i => n.activation.f (hNew i) }

/-- `RNN.get_a_jacobian` (src/network.py lines 129-134):
`a_J ← diag(f_prime(h)) · (W_rec + diag((1-α)/f_prime(h_prev)))`. -/
def get_a_jacobian (n : RNN H I O) : RNN H I O :=
  { n with
    a_J :=
      matMul (diagM (fun i => n.activation.f_prime (n.h i)))
        (n.W_rec + diagM (fun i => (1 - n.alpha) / n.activation.f_prime (n.h_prev i))) }

/-- `a_hat = np.concatenate([self.a_prev, self.x, np.array([1])])`
(src/network.py line 138), a runtime array of length `H + I + 1`. -/
def a_hat (n : RNN H I O) : ℕ → ℚ :=
  npCat H (toArr n.a_prev) (npCat I (toArr n.x) fun _ => 1)

/-- `RNN.get_partial_a_partial_w` (src/network.py lines 136-139):
`np.kron(a_hat, np.diag(activation.f_prime(h)))`.  For `np.kron` of a
1-D array of length `p` with an `H×H` matrix the result is `H × (p·H)` with
entry `(i, j1·H + j2) = a_hat[j1] · D[i, j2]`; column `k` therefore reads
`a_hat (k / H) · D i (k % H)`. -/
def get_pa_pw (n : RNN H I O) : Fin H → ℕ → ℚ :=
  fun i k =>
    n.a_hat (k / H) *
      diagM (fun i' => n.activation.f_prime (n.h i')) i ⟨k % H, Nat.mod_lt k i.pos⟩

/-- `RNN.update_dadw` with `method='rtrl'` (src/network.py lines 145-148):
`dadw ← a_J.dot(dadw) + partial_a_partial_w`. -/
def update_dadw_rtrl (n : RNN H I O) : RNN H I O :=
  { n with dadw := fun i k => (∑ j, n.a_J i j * n.dadw j k) + n.get_pa_pw i k }

/-- The UORO sign draw `nu = np.random.uniform(-1, 1, self.n_hidden)`
(src/network.py line 154), expressed through unit draws `u` of the
underlying generator. -/
def uoro_nu (H : ℕ) (u : Fin H → ℚ) : Fin H → ℚ :=
  fun i => npUniform (-1) 1 (u i)

/-- The KF-RTRL sign draw `c1, c2 = np.random.uniform(-1, 1, 2)`
(src/network.py line 169), expressed through unit draws of the generator. -/
def kf_signs (u1 u2 : ℚ) : ℚ × ℚ :=
  (npUniform (-1) 1 u1, npUniform (-1) 1 u2)

/-- `q = e.dot(self.W_out)` (src/network.py line 209), the immediate
downstream sensitivity used by `update_params`. -/
def q (n : RNN H I O) (e : Fin O → ℚ) : Fin H → ℚ :=
  vecMat e n.W_out

/-- The flat gradient built by `RNN.update_params` for `method='rtrl'`
(src/network.py lines 214-218):
`np.concatenate([q.dot(self.dadw), np.multiply.outer(e, self.a).flatten(), e])`.
The first block has length `n_hidden_params H I`, the second `O·H` (note:
`.flatten()` is numpy's default row-major order), the third `O`. -/
def flat_grad_rtrl (n : RNN H I O) (e : Fin O → ℚ) : ℕ → ℚ :=
  npCat (n_hidden_params H I) (fun k => ∑ j, n.q e j * n.dadw j k)
    (npCat (O * H) (outerFlatRowMajor e n.a) (toArr e))

/-- The five per-parameter gradients recovered from a flat gradient by
`RNN.update_params` (src/network.py line 232):
`gradient[flat_idx[i]:flat_idx[i+1]].reshape(s, order='F')`.  Element
`(i, j)` of an `order='F'` reshape with `r` rows reads slice position
`j·r + i`; the slice starts are the `flat_idx` offsets of line 56. -/
structure Grads where
  g_W_rec : ℕ → ℕ → ℚ
  g_W_in : ℕ → ℕ → ℚ
  g_b_rec : ℕ → ℚ
  g_W_out : ℕ → ℕ → ℚ
  g_b_out : ℕ → ℚ

/-- The reshape-and-split of src/network.py line 232, with the shape list of
line 54 (`[(H,H), (H,I), (H,), (O,H), (O,)]`) and the `flat_idx` offsets of
line 56. -/
def split_gradient (H I O : ℕ) (g : ℕ → ℚ) : Grads :=
  { g_W_rec := fun i j => g (0 + (j * H + i))
    g_W_in := fun i j => g (H * H + (j * H + i))
    g_b_rec := fun i => g (H * H + H * I + i)
    g_W_out := fun i j => g (H * H + H * I + H + (j * O + i))
    g_b_out := fun i => g (H * H + H * I + H + O * H + i) }

/-- Modelled from the spec: optimizers.py is not under src/ (only its callers
are).  Per spec §4.2/§6, `SGD(lr).get_update(params, grads)` returns
`params - lr * grads` for each parameter tensor. -/
def sgd_update (lr : ℚ) (param grad : ℚ) : ℚ := param - lr * grad

/-- `RNN.update_params` for `method='rtrl'` (src/network.py lines 200-242):
compute `e = loss.f_prime(z, y)` (line 205), build the flat gradient,
reshape-and-split it (line 232), add `l2_reg * param` to the `W_rec`, `W_in`
and `W_out` gradients when `l2_reg > 0` (lines 234-236), and apply the
optimizer (here the spec-modelled SGD) to all five parameters. -/
def update_params_rtrl (n : RNN H I O) (y : Fin O → ℚ) (lossF : LossFn O)
    (lr : ℚ) : RNN H I O :=
  let e := lossF.f_prime n.z y
  let gr := split_gradient H I O (n.flat_grad_rtrl e)
  let l2 : ℚ → ℚ := fun p => if n.l2_reg > 0 then n.l2_reg * p else 0
  { n with
    W_rec := fun i j => sgd_update lr (n.W_rec i j)
      (gr.g_W_rec i.val j.val + l2 (n.W_rec i j))
    W_in := fun i j => sgd_update lr (n.W_in i j)
      (gr.g_W_in i.val j.val + l2 (n.W_in i j))
    b_rec := fun i => sgd_update lr (n.b_rec i) (gr.g_b_rec i.val)
    W_out := fun i j => sgd_update lr (n.W_out i j)
      (gr.g_W_out i.val j.val + l2 (n.W_out i j))
    b_out := fun i => sgd_update lr (n.b_out i) (gr.g_b_out i.val) }

/-- `RNN.run` (src/network.py lines 244-303) specialized to `method='rtrl'`:
the time loop over `(x, y)` pairs.  Per iteration (lines 284-303):
`next_state`, `z_out`, `y_hat ← output.f(z)`, `loss_ ← loss.f(z, y)`, and —
only while `i_t < t_stop_learning` (line 295) — `get_a_jacobian`,
`update_dadw`, `update_params`.  The returned list holds the per-step
`loss_` values in order (what `mons` collects for the `loss_` monitor); its
length is the number of loop iterations executed.  The loop body of the
source contains no conditional break, return or raise. -/
def run_loop (lossF : LossFn O) (outF : (Fin O → ℚ) → Fin O → ℚ) (lr : ℚ)
    (t_stop : ℕ) :
    RNN H I O → List ((Fin I → ℚ) × (Fin O → ℚ)) → ℕ →
      RNN H I O × List (WithTop ℚ)
  | n, [], _ => (n, [])
  | n, (x, y) :: rest, i_t =>
    let n1 := (n.next_state x).z_out
    let n2 := { n1 with y_hat := outF n1.z, loss_ := lossF.f n1.z y }
    let n3 := if i_t < t_stop
      then ((n2.get_a_jacobian).update_dadw_rtrl).update_params_rtrl y lossF lr
      else n2
    let r := run_loop lossF outF lr t_stop n3 rest (i_t + 1)
    (r.1, n2.loss_ :: r.2)

/-- `RNN.run` entry: `self.reset_network()` (line 254, with its random draw
passed as the oracle `hDraw`), then the time loop from `i_t = 0`. -/
def run (n : RNN H I O) (lossF : LossFn O) (outF : (Fin O → ℚ) → Fin O → ℚ)
    (lr : ℚ) (xy : List ((Fin I → ℚ) × (Fin O → ℚ))) (t_stop : ℕ)
    (hDraw : Fin H → ℚ) : RNN H I O × List (WithTop ℚ) :=
  run_loop lossF outF lr t_stop (n.reset_network none hDraw) xy 0

end RNN

/-- Keyword-argument names occurring in the cross-module calls the claims
cite.  Python raises `TypeError` when a call passes a keyword argument whose
name is not among the callee's formal parameters. -/
inductive Kw
  | x
  | h
  | sigma
  | a
  deriving DecidableEq

/-- Whether a Python call whose keyword arguments are named `ks` is accepted
by a function whose formal parameter names (after `self`) are `ps`; when
`false` the call raises `TypeError: unexpected keyword argument`. -/
def acceptsKeywords (ps ks : List Kw) : Bool :=
  ks.all fun k => ps.contains k

/-- Formal parameter names of `RNN.next_state` after `self`
(src/network.py line 96: `def next_state(self, x)`). -/
def RNN.next_state_keywords : List Kw := [Kw.x]

/-- Formal parameter names of `RNN.reset_network` after `self`
(src/network.py line 120: `def reset_network(self, h=None)`). -/
def RNN.reset_network_keywords : List Kw := [Kw.h]

namespace Simulation

/-- Keyword arguments of the driver's forward call
`net.next_state(net.x, sigma=self.sigma)` (src/simulation.py line 249;
`net.x` is positional). -/
def forward_pass_next_state_call_keywords : List Kw := [Kw.sigma]

/-- Keyword arguments of the trial-boundary reset call
`self.net.reset_network(sigma=self.reset_sigma)` (src/simulation.py
line 235). -/
def trial_structure_reset_call_keywords : List Kw := [Kw.sigma]

/-- Keyword arguments of the initial reset call
`self.net.reset_network(a=self.a_initial)` (src/simulation.py line 216). -/
def initialize_run_reset_call_keywords : List Kw := [Kw.a]

end Simulation

/-- The `loss_` and `error` attributes of the `Simulation` object itself
(not of the network).  `none` models an attribute Python has not set;
reading it raises `AttributeError`.  No code path ever sets either of them
on the `Simulation` object before `forward_pass` runs. -/
structure SimAttrs (O : ℕ) where
  loss_ : Option ℚ
  error : Option (Fin O → ℚ)

/-- Python runtime errors relevant to the cited code paths. -/
inductive PyErr
  | attributeError
  | typeError
  deriving DecidableEq

/-- The trial-mask block of `Simulation.forward_pass` (src/simulation.py
lines 257-260): `self.loss_ *= self.trial_lr_mask[self.i_t_trial]` and
`self.error *= ...`.  `self` there is the Simulation object, so the block
reads and writes `sim.loss_` / `sim.error`, never `net.loss_` / `net.error`
(which lines 254-255 set just before); the network values are returned
unchanged.  An in-place `*=` first reads the attribute, so an unset
attribute raises `AttributeError`. -/
def Simulation.apply_lr_mask {O : ℕ} (s : SimAttrs O) (netLoss : WithTop ℚ)
    (netError : Fin O → ℚ) (m : ℚ) :
    Except PyErr (SimAttrs O × WithTop ℚ × (Fin O → ℚ)) :=
  match s.loss_ with
  | none => Except.error PyErr.attributeError
  | some l =>
    match s.error with
    | none => Except.error PyErr.attributeError
    | some er =>
      Except.ok (⟨some (l * m), some fun o => er o * m⟩, netLoss, netError)

/-- The canonical ordered flattening of the parameter list
`[W_rec, W_in, b_rec, W_out, b_out]` — each tensor flattened column-major,
then concatenated — whose cumulative offsets are `RNN.flat_idx` (spec §3,
claim C9).  This is the convention side of the round-trip check against the
source's `RNN.split_gradient`. -/
def flatten_params (H I O : ℕ) (Wr : Fin H → Fin H → ℚ)
    (Wi : Fin H → Fin I → ℚ) (br : Fin H → ℚ) (Wo : Fin O → Fin H → ℚ)
    (bo : Fin O → ℚ) : ℕ → ℚ :=
  npCat (H * H) (flatColMajor H (toArr2 Wr))
    (npCat (H * I) (flatColMajor H (toArr2 Wi))
      (npCat H (toArr br)
        (npCat (O * H) (flatColMajor O (toArr2 Wo)) (toArr bo))))

/-- Flatten-then-split round trip: the five tensors recovered by the source's
reshape-and-split from the canonical flat layout. -/
def roundtrip_grads (H I O : ℕ) (Wr : Fin H → Fin H → ℚ)
    (Wi : Fin H → Fin I → ℚ) (br : Fin H → ℚ) (Wo : Fin O → Fin H → ℚ)
    (bo : Fin O → ℚ) : RNN.Grads :=
  RNN.split_gradient H I O (flatten_params H I O Wr Wi br Wo bo)

/-- Identity activation with constant derivative 1, used for the concrete
instances below. -/
def actId : Activation := ⟨fun q => q, fun _ => 1⟩

/-- A concrete 1-1-1 network with all parameters and state zero and
`alpha = 0`; its `a = activation.f h` invariant holds (`0 = id 0`). -/
def exNet111 : RNN 1 1 1 :=
  { W_rec := fun _ _ => 0, W_in := fun _ _ => 0, b_rec := fun _ => 0,
    W_out := fun _ _ => 0, b_out := fun _ => 0, activation := actId,
    alpha := 0, l2_reg := 0, h := fun _ => 0, a := fun _ => 0,
    z := fun _ => 0, h_prev := fun _ => 0, a_prev := fun _ => 0,
    x := fun _ => 0, y_hat := fun _ => 0, loss_ := 0, error := fun _ => 0,
    a_J := fun _ _ => 0, dadw := fun _ _ => 0 }

/-- A concrete network with `H = 2`, `I = 1`, `O = 2` and activation values
`a = (3, 4)`, used to evaluate the gradient layout. -/
def exNet212 : RNN 2 1 2 :=
  { W_rec := fun _ _ => 0, W_in := fun _ _ => 0, b_rec := fun _ => 0,
    W_out := fun _ _ => 0, b_out := fun _ => 0, activation := actId,
    alpha := 1, l2_reg := 0, h := fun _ => 0,
    a := fun i => if i.val = 0 then 3 else 4,
    z := fun _ => 0, h_prev := fun _ => 0,
    a_prev := fun i => if i.val = 0 then 9 else 10,
    x := fun _ => 0, y_hat := fun _ => 0, loss_ := 0, error := fun _ => 0,
    a_J := fun _ _ => 0, dadw := fun _ _ => 0 }

/-- The concrete error vector `e = (1, 2)` used with `exNet212`. -/
def eC : Fin 2 → ℚ := fun o => if o.val = 0 then 1 else 2

/-- A loss-function object whose value is non-finite (`⊤`, e.g. a float
softmax cross-entropy evaluating to `inf`) at every point, with a zero error
signal. -/
def lossTop : LossFn 1 := ⟨fun _ _ => ⊤, fun _ _ => fun _ => 0⟩

theorem matMul_diagM_left {n p : ℕ} (v : Fin n → ℚ) (M : Fin n → Fin p → ℚ)
    (i : Fin n) (j : Fin p) : matMul (diagM v) M i j = v i * M i j := by
  simp [matMul, diagM, ite_mul, zero_mul, Finset.sum_ite_eq]

theorem npCat_lt (m : ℕ) (v w : ℕ → ℚ) {k : ℕ} (hk : k < m) :
    npCat m v w k = v k := by
  simp [npCat, hk]

theorem npCat_ge (m : ℕ) (v w : ℕ → ℚ) {k : ℕ} (hk : m ≤ k) :
    npCat m v w k = w (k - m) := by
  simp [npCat]
  omega

theorem idxF_lt {r c i j : ℕ} (hi : i < r) (hj : j < c) : j * r + i < c * r := by
  have h1 : j * r + i < (j + 1) * r := by
    rw [Nat.succ_mul]
    omega
  exact lt_of_lt_of_le h1 (Nat.mul_le_mul_right r hj)

theorem idxF_mod {r i : ℕ} (j : ℕ) (hi : i < r) : (j * r + i) % r = i := by
  rw [Nat.mul_comm j r, Nat.mul_add_mod]
  exact Nat.mod_eq_of_lt hi

theorem idxF_div {r i : ℕ} (j : ℕ) (hi : i < r) : (j * r + i) / r = j := by
  rw [Nat.mul_comm j r, Nat.mul_add_div (Nat.lt_of_le_of_lt (Nat.zero_le i) hi),
    Nat.div_eq_of_lt hi, Nat.add_zero]

/-- C1: the claim says `next_state(x, σ)` adds `σ·ξ` to the pre-activation.
In src/network.py `next_state` has signature `(self, x)`: the driver's call
`net.next_state(net.x, sigma=self.sigma)` (src/simulation.py line 249)
passes a keyword `sigma` that `next_state` does not accept — in Python a
`TypeError` — and the source step carries no noise term: it coincides with
the spec's step at `σ = 0` for every noise draw `ξ`, and differs from the
spec's step at `σ = 1`, `ξ = 1` on a concrete network.  The per-step noise
is never added to the pre-activation. -/
theorem claim_C1_next_state_has_no_sigma :
    acceptsKeywords RNN.next_state_keywords
        Simulation.forward_pass_next_state_call_keywords = false
    ∧ (∀ (H I O : ℕ) (n : RNN H I O) (x : Fin I → ℚ) (xi : Fin H → ℚ),
        (n.next_state x).h = (n.next_state_spec x 0 xi).h)
    ∧ (exNet111.next_state fun _ => 0).h 0
        ≠ (exNet111.next_state_spec (fun _ => 0) 1 fun _ => 1).h 0 := by
  refine ⟨by decide, ?_, ?_⟩
  · intro H I O n x xi
    funext i
    simp [RNN.next_state, RNN.next_state_spec]
  · simp [RNN.next_state, RNN.next_state_spec, exNet111, matVec, actId]

/-- C2: after a forward step, `get_a_jacobian` sets `a_J` to
`diag(f_prime(h)) · (W_rec + diag((1-α)/f_prime(h_prev)))`, where `h` is the
just-computed pre-activation and `h_prev` the pre-step one saved by
`next_state` — entrywise
`a_J[i,j] = f'(h_t[i]) · (W_rec[i,j] + δ_ij·(1-α)/f'(h_{t-1}[i]))`. -/
theorem claim_C2_a_jacobian (H I O : ℕ) (n : RNN H I O) (x : Fin I → ℚ)
    (i j : Fin H) :
    ((n.next_state x).get_a_jacobian).a_J i j =
      n.activation.f_prime ((n.next_state x).h i) *
        (n.W_rec i j +
          if i = j then (1 - n.alpha) / n.activation.f_prime (n.h i) else 0) := by
  show matMul (diagM _) _ i j = _
  rw [matMul_diagM_left]
  simp [RNN.next_state, diagM, Pi.add_apply]

/-- C10: the invariant `a = activation.f(h)` holds after construction
(src/network.py lines 77-78), after `next_state` (lines 112-113) and after
`reset_network` with or without a provided `h` (lines 120-127), and every
other public operation (`z_out`, `get_a_jacobian`, `update_dadw`,
`update_params`) leaves `h`, `a` and `activation` untouched, hence preserves
it. -/
theorem claim_C10_activation_state_sync (H I O : ℕ) (n : RNN H I O)
    (x : Fin I → ℚ) (hArg : Option (Fin H → ℚ)) (hDraw : Fin H → ℚ)
    (y : Fin O → ℚ) (lossF : LossFn O) (lr : ℚ)
    (hinv : n.a = fun i => n.activation.f (n.h i)) :
    (∀ (Wr : Fin H → Fin H → ℚ) (Wi : Fin H → Fin I → ℚ) (br : Fin H → ℚ)
        (Wo : Fin O → Fin H → ℚ) (bo : Fin O → ℚ) (act : Activation)
        (al l2 : ℚ) (hD : Fin H → ℚ) (zD : Fin O → ℚ) (dD : Fin H → ℕ → ℚ)
        (uh ua : Fin H → ℚ) (ux : Fin I → ℚ) (uy : Fin O → ℚ)
        (ul : WithTop ℚ) (ue : Fin O → ℚ) (uj : Fin H → Fin H → ℚ),
        (RNN.init Wr Wi br Wo bo act al l2 hD zD dD uh ua ux uy ul ue uj).a
          = fun i =>
              (RNN.init Wr Wi br Wo bo act al l2 hD zD dD uh ua ux uy ul ue uj).activation.f
                ((RNN.init Wr Wi br Wo bo act al l2 hD zD dD uh ua ux uy ul ue uj).h i))
    ∧ ((n.next_state x).a
        = fun i => (n.next_state x).activation.f ((n.next_state x).h i))
    ∧ ((n.reset_network hArg hDraw).a
        = fun i => (n.reset_network hArg hDraw).activation.f
            ((n.reset_network hArg hDraw).h i))
    ∧ (n.z_out.a = fun i => n.z_out.activation.f (n.z_out.h i))
    ∧ (n.get_a_jacobian.a
        = fun i => n.get_a_jacobian.activation.f (n.get_a_jacobian.h i))
    ∧ (n.update_dadw_rtrl.a
        = fun i => n.update_dadw_rtrl.activation.f (n.update_dadw_rtrl.h i))
    ∧ ((n.update_params_rtrl y lossF lr).a
        = fun i => (n.update_params_rtrl y lossF lr).activation.f
            ((n.update_params_rtrl y lossF lr).h i)) :=
  ⟨fun _ _ _ _ _ _ _ _ _ _ _ _ _ _ _ _ _ _ => rfl, rfl, rfl, hinv, hinv, hinv,
    hinv⟩

/-- Witness for C10 at a concrete network satisfying the invariant. -/
theorem claim_C10_activation_state_sync_witness :
    (exNet111.next_state fun _ => 0).a
      = fun i => (exNet111.next_state fun _ => 0).activation.f
          ((exNet111.next_state fun _ => 0).h i) :=
  (claim_C10_activation_state_sync 1 1 1 exNet111 (fun _ => 0) none
      (fun _ => 0) (fun _ => 0) lossTop 0 rfl).2.1

/-- C3: with method 'rtrl', `update_dadw` performs
`dadw ← a_J·dadw + kron(â, diag(f_prime(h)))` where `â = [a_prev; x; 1]`
(entrywise: column `k` of the Kronecker term is
`â[k/H] · δ(i, k%H) · f'(h_i)`, and `â` reads `a_prev`, then `x`, then the
constant 1), and the first `P_h = n_hidden_params` entries of the flat
gradient emitted by `update_params` equal `q·dadw` with `q = e·W_out`. -/
theorem claim_C3_rtrl_update (H I O : ℕ) (n : RNN H I O) (e : Fin O → ℚ) :
    (∀ (i : Fin H) (k : ℕ),
        n.update_dadw_rtrl.dadw i k =
          (∑ j, n.a_J i j * n.dadw j k) +
            n.a_hat (k / H) *
              (if i.val = k % H then n.activation.f_prime (n.h i) else 0))
    ∧ (∀ c (hc : c < H), n.a_hat c = n.a_prev ⟨c, hc⟩)
    ∧ (∀ c (hc : c < I), n.a_hat (H + c) = n.x ⟨c, hc⟩)
    ∧ n.a_hat (H + I) = 1
    ∧ (∀ k, k < RNN.n_hidden_params H I →
        n.flat_grad_rtrl e k = ∑ j, n.q e j * n.dadw j k) := by
  refine ⟨?_, ?_, ?_, ?_, ?_⟩
  · intro i k
    simp [RNN.update_dadw_rtrl, RNN.get_pa_pw, diagM, Fin.ext_iff]
  · intro c hc
    rw [RNN.a_hat, npCat_lt _ _ _ hc]
    simp only [toArr]
    rw [dif_pos hc]
  · intro c hc
    rw [RNN.a_hat, npCat_ge _ _ _ (Nat.le_add_right H c),
      Nat.add_sub_cancel_left, npCat_lt _ _ _ hc]
    simp only [toArr]
    rw [dif_pos hc]
  · rw [RNN.a_hat, npCat_ge _ _ _ (Nat.le_add_right H I),
      Nat.add_sub_cancel_left, npCat_ge _ _ _ (le_refl I)]
  · intro k hk
    rw [RNN.flat_grad_rtrl, npCat_lt _ _ _ hk]

/-- Witness for C3 at the concrete `exNet212`, `e = (1,2)`, index 0. -/
theorem claim_C3_rtrl_update_witness :
    exNet212.a_hat 0 = exNet212.a_prev 0
    ∧ exNet212.flat_grad_rtrl eC 0 = ∑ j, exNet212.q eC j * exNet212.dadw j 0 :=
  ⟨(claim_C3_rtrl_update 2 1 2 exNet212 eC).2.1 0 (by norm_num),
   (claim_C3_rtrl_update 2 1 2 exNet212 eC).2.2.2.2 0 (by decide)⟩

/-- C4 exhibits the gradient-layout bug of `update_params`
(src/network.py lines 214 and 232): the W_out block of the flat gradient is
the row-major flattening of `outer(e, a)` (`.flatten()`, numpy default
order 'C') while the split reshapes column-major (`order='F'`).  At
`H = 2, I = 1, O = 2`, `e = (1,2)`, `a = (3,4)` the recovered `grads[3]`
entry `(0,1)` is `e[1]·a[0] = 6`, not the claimed
`outer(e,a)[0,1] = e[0]·a[1] = 4`; the `b_out` slot `grads[4] = e` does
hold. -/
theorem claim_C4_wout_block_scrambled :
    (RNN.split_gradient 2 1 2 (exNet212.flat_grad_rtrl eC)).g_W_out 0 1
        ≠ eC 0 * exNet212.a 1
    ∧ (RNN.split_gradient 2 1 2 (exNet212.flat_grad_rtrl eC)).g_W_out 0 1
        = eC 1 * exNet212.a 0
    ∧ (RNN.split_gradient 2 1 2 (exNet212.flat_grad_rtrl eC)).g_b_out 0 = eC 0
    ∧ (RNN.split_gradient 2 1 2 (exNet212.flat_grad_rtrl eC)).g_b_out 1 = eC 1 := by
  refine ⟨?_, ?_, ?_, ?_⟩ <;>
    norm_num [RNN.split_gradient, RNN.flat_grad_rtrl, RNN.n_hidden_params,
      npCat, outerFlatRowMajor, toArr, exNet212, eC]

/-- C6: the claim says the driver re-draws `h` from N(0, reset_sigma²) at
trial boundaries via `reset_network(sigma=...)` — but src/network.py's
`reset_network` accepts only the keyword `h` (line 120), so the call at
src/simulation.py line 235 raises `TypeError` (as does the `a=...` call at
line 216); no code path under src/ draws the reset state at the
`reset_sigma` scale. -/
theorem claim_C6_reset_sigma_keyword_rejected :
    acceptsKeywords RNN.reset_network_keywords
        Simulation.trial_structure_reset_call_keywords = false
    ∧ acceptsKeywords RNN.reset_network_keywords
        Simulation.initialize_run_reset_call_keywords = false := by
  decide

/-- C7: the mask block of `forward_pass` multiplies `self.loss_` and
`self.error` of the Simulation object — attributes nothing ever sets —
instead of the just-assigned `net.loss_` / `net.error`: on a fresh
simulation it raises `AttributeError`, and the network's loss and error are
never scaled. -/
theorem claim_C7_mask_misses_network :
    Simulation.apply_lr_mask (SimAttrs.mk none none) exNet111.loss_
        exNet111.error (1 / 2)
      = Except.error PyErr.attributeError := rfl

/-- C8: the UORO sign vector `nu` (src/network.py line 154) and the KF-RTRL
signs `c1, c2` (line 169) are drawn with `np.random.uniform(-1, 1)`, not as
Rademacher ±1 variables: at unit draws `u = 1/2` and `(1/2, 3/4)` the
samples are `0` and `(0, 1/2)`, values outside `{-1, +1}`. -/
theorem claim_C8_sign_draws_not_rademacher :
    RNN.uoro_nu 1 (fun _ => 1 / 2) 0 = 0
    ∧ RNN.kf_signs (1 / 2) (3 / 4) = (0, 1 / 2)
    ∧ (0 : ℚ) ∉ ({-1, 1} : Finset ℚ)
    ∧ (1 / 2 : ℚ) ∉ ({-1, 1} : Finset ℚ) := by
  refine ⟨?_, ?_, ?_, ?_⟩ <;>
    norm_num [RNN.uoro_nu, RNN.kf_signs, npUniform]

theorem run_loop_length (H I O : ℕ) (lossF : LossFn O)
    (outF : (Fin O → ℚ) → Fin O → ℚ) (lr : ℚ) (t_stop : ℕ)
    (xy : List ((Fin I → ℚ) × (Fin O → ℚ))) :
    ∀ (n : RNN H I O) (i_t : ℕ),
      ((RNN.run_loop lossF outF lr t_stop n xy i_t).2).length = xy.length := by
  induction xy with
  | nil => intro n i_t; rfl
  | cons p rest ih =>
    intro n i_t
    obtain ⟨x, y⟩ := p
    simp [RNN.run_loop, ih]

/-- C5 counterexample: with a loss-function object whose value is non-finite
(`⊤`) everywhere, a two-input run with the source's time loop records `⊤`
as the loss of step 0 and still executes step 1, recording two losses — it
does not halt at the step where the non-finite loss appears, and no
diagnostic path exists in src/simulation.py lines 158-186 or
src/network.py lines 284-303. -/
theorem claim_C5_counterexample :
    ((exNet111.run lossTop id 0
        [(fun _ => 0, fun _ => 0), (fun _ => 0, fun _ => 0)] 0 fun _ => 0).2)
      = [⊤, ⊤] := rfl

/-- C5 amended: the time loop contains no finiteness check and no early
exit of any kind — every run executes exactly one iteration per input and
records one loss value per step, whatever values (non-finite included) the
loss takes. -/
theorem claim_C5_run_never_halts_early (H I O : ℕ) (n : RNN H I O)
    (lossF : LossFn O) (outF : (Fin O → ℚ) → Fin O → ℚ) (lr : ℚ)
    (xy : List ((Fin I → ℚ) × (Fin O → ℚ))) (t_stop : ℕ)
    (hDraw : Fin H → ℚ) :
    ((RNN.run n lossF outF lr xy t_stop hDraw).2).length = xy.length :=
  run_loop_length H I O lossF outF lr t_stop xy _ 0

/-- C9: flatten–split round trip.  Flattening `[W_rec, W_in, b_rec, W_out,
b_out]` column-major in the canonical order and splitting with the source's
`split_gradient` (the `flat_idx` offsets and `order='F'` reshape of
src/network.py lines 56 and 232) recovers every entry of all five input
tensors exactly, for all shapes `H`, `I`, `O`. -/
theorem claim_C9_layout_roundtrip (H I O : ℕ) (Wr : Fin H → Fin H → ℚ)
    (Wi : Fin H → Fin I → ℚ) (br : Fin H → ℚ) (Wo : Fin O → Fin H → ℚ)
    (bo : Fin O → ℚ) :
    (∀ i j (hi : i < H) (hj : j < H),
        (roundtrip_grads H I O Wr Wi br Wo bo).g_W_rec i j = Wr ⟨i, hi⟩ ⟨j, hj⟩)
    ∧ (∀ i j (hi : i < H) (hj : j < I),
        (roundtrip_grads H I O Wr Wi br Wo bo).g_W_in i j = Wi ⟨i, hi⟩ ⟨j, hj⟩)
    ∧ (∀ i (hi : i < H),
        (roundtrip_grads H I O Wr Wi br Wo bo).g_b_rec i = br ⟨i, hi⟩)
    ∧ (∀ i j (hi : i < O) (hj : j < H),
        (roundtrip_grads H I O Wr Wi br Wo bo).g_W_out i j = Wo ⟨i, hi⟩ ⟨j, hj⟩)
    ∧ (∀ i (hi : i < O),
        (roundtrip_grads H I O Wr Wi br Wo bo).g_b_out i = bo ⟨i, hi⟩) := by
  refine ⟨?_, ?_, ?_, ?_, ?_⟩
  · intro i j hi hj
    show flatten_params H I O Wr Wi br Wo bo (0 + (j * H + i)) = _
    unfold flatten_params
    rw [Nat.zero_add, npCat_lt _ _ _ (idxF_lt hi hj)]
    show toArr2 Wr ((j * H + i) % H) ((j * H + i) / H) = _
    rw [idxF_mod j hi, idxF_div j hi]
    simp [toArr2, hi, hj]
  · intro i j hi hj
    show flatten_params H I O Wr Wi br Wo bo (H * H + (j * H + i)) = _
    unfold flatten_params
    rw [npCat_ge _ _ _ (Nat.le_add_right _ _), Nat.add_sub_cancel_left]
    have hx : j * H + i < H * I := by
      have h2 := idxF_lt hi hj
      rwa [Nat.mul_comm I H] at h2
    rw [npCat_lt _ _ _ hx]
    show toArr2 Wi ((j * H + i) % H) ((j * H + i) / H) = _
    rw [idxF_mod j hi, idxF_div j hi]
    simp [toArr2, hi, hj]
  · intro i hi
    show flatten_params H I O Wr Wi br Wo bo (H * H + H * I + i) = _
    unfold flatten_params
    rw [npCat_ge _ _ _ (by omega)]
    have e1 : H * H + H * I + i - H * H = H * I + i := by omega
    rw [e1, npCat_ge _ _ _ (Nat.le_add_right _ _), Nat.add_sub_cancel_left,
      npCat_lt _ _ _ hi]
    simp [toArr, hi]
  · intro i j hi hj
    show flatten_params H I O Wr Wi br Wo bo
        (H * H + H * I + H + (j * O + i)) = _
    unfold flatten_params
    rw [npCat_ge _ _ _ (by omega)]
    have e1 : H * H + H * I + H + (j * O + i) - H * H
        = H * I + (H + (j * O + i)) := by omega
    rw [e1, npCat_ge _ _ _ (Nat.le_add_right _ _), Nat.add_sub_cancel_left,
      npCat_ge _ _ _ (Nat.le_add_right _ _), Nat.add_sub_cancel_left]
    have hx : j * O + i < O * H := by
      have h2 := idxF_lt hi hj
      rwa [Nat.mul_comm H O] at h2
    rw [npCat_lt _ _ _ hx]
    show toArr2 Wo ((j * O + i) % O) ((j * O + i) / O) = _
    rw [idxF_mod j hi, idxF_div j hi]
    simp [toArr2, hi, hj]
  · intro i hi
    show flatten_params H I O Wr Wi br Wo bo
        (H * H + H * I + H + O * H + i) = _
    unfold flatten_params
    rw [npCat_ge _ _ _ (by omega)]
    have e1 : H * H + H * I + H + O * H + i - H * H
        = H * I + (H + (O * H + i)) := by omega
    rw [e1, npCat_ge _ _ _ (Nat.le_add_right _ _), Nat.add_sub_cancel_left,
      npCat_ge _ _ _ (Nat.le_add_right _ _), Nat.add_sub_cancel_left,
      npCat_ge _ _ _ (Nat.le_add_right _ _), Nat.add_sub_cancel_left]
    simp [toArr, hi]

/-- Witness for C9 at shapes `H = I = O = 1` with distinct constant
tensors. -/
theorem claim_C9_layout_roundtrip_witness :
    (roundtrip_grads 1 1 1 (fun _ _ => 2) (fun _ _ => 3) (fun _ => 5)
        (fun _ _ => 7) (fun _ => 11)).g_W_rec 0 0 = 2
    ∧ (roundtrip_grads 1 1 1 (fun _ _ => 2) (fun _ _ => 3) (fun _ => 5)
        (fun _ _ => 7) (fun _ => 11)).g_W_in 0 0 = 3
    ∧ (roundtrip_grads 1 1 1 (fun _ _ => 2) (fun _ _ => 3) (fun _ => 5)
        (fun _ _ => 7) (fun _ => 11)).g_b_rec 0 = 5
    ∧ (roundtrip_grads 1 1 1 (fun _ _ => 2) (fun _ _ => 3) (fun _ => 5)
        (fun _ _ => 7) (fun _ => 11)).g_W_out 0 0 = 7
    ∧ (roundtrip_grads 1 1 1 (fun _ _ => 2) (fun _ _ => 3) (fun _ => 5)
        (fun _ _ => 7) (fun _ => 11)).g_b_out 0 = 11 :=
  ⟨(claim_C9_layout_roundtrip 1 1 1 (fun _ _ => 2) (fun _ _ => 3) (fun _ => 5)
      (fun _ _ => 7) (fun _ => 11)).1 0 0 (by decide) (by decide),
   (claim_C9_layout_roundtrip 1 1 1 (fun _ _ => 2) (fun _ _ => 3) (fun _ => 5)
      (fun _ _ => 7) (fun _ => 11)).2.1 0 0 (by decide) (by decide),
   (claim_C9_layout_roundtrip 1 1 1 (fun _ _ => 2) (fun _ _ => 3) (fun _ => 5)
      (fun _ _ => 7) (fun _ => 11)).2.2.1 0 (by decide),
   (claim_C9_layout_roundtrip 1 1 1 (fun _ _ => 2) (fun _ _ => 3) (fun _ => 5)
      (fun _ _ => 7) (fun _ => 11)).2.2.2.1 0 0 (by decide) (by decide),
   (claim_C9_layout_roundtrip 1 1 1 (fun _ _ => 2) (fun _ _ => 3) (fun _ => 5)
      (fun _ _ => 7) (fun _ => 11)).2.2.2.2 0 (by decide)⟩

end VanillaRTRL
